import Mathlib

/-!
Shallow embedding of `src/main.py` (fuNTrack): a presence tracker that
consumes raw user-status events for one tracked identity, debounces
offline transitions by `OFFLINE_DELAY` seconds through a cancellable
task (`delayed_offline`), keeps the current snapshot in the global
`state` dict, and broadcasts the snapshot to all connected websocket
clients on every confirmed change.

Modelling conventions:
* Machine time is `Nat` seconds.  `datetime.utcnow()` at an event is the
  event's timestamp; the formatted `strftime` string stored in
  `state["last_seen"]` is modelled as `some t` (`none` is the `"--"`
  sentinel).
* `state["status"]` is kept as a raw `String`, exactly as in the code,
  so "the status field only ever holds one of three values" is a real
  theorem rather than a typing triviality.
* Asyncio tasks created by `asyncio.create_task(delayed_offline())` are
  modelled by their wakeup time (arm time + `OFFLINE_DELAY`).  The field
  `offline_task` is the task reference held in the global variable of
  the same name; `liveTasks` is the set (as a list) of tasks that are
  armed and neither cancelled nor completed, so that the "at most one
  live debounce handle" invariant is provable rather than built in.
* Each broadcast is logged as the full snapshot sent (the code sends the
  whole `state` dict each time).
-/

namespace FunTrack

/-- The global `state` dict of main.py (lines 35-40): `name`, `status`,
`last_seen` (`none` models the `"--"` sentinel, `some t` a formatted
timestamp of time `t`) and `duration`. -/
structure Snapshot where
  name : String
  status : String
  last_seen : Option Nat
  duration : String
deriving Repr, DecidableEq

/-- The mutable globals of main.py: the `state` dict, `online_since`,
the `offline_task` variable (wakeup time of the task it references, or
`none`), and the list of armed, uncancelled, unfired debounce tasks. -/
structure Sys where
  state : Snapshot
  online_since : Option Nat
  offline_task : Option Nat
  liveTasks : List Nat
deriving Repr, DecidableEq

/-- `OFFLINE_DELAY = 40` seconds (main.py line 44). -/
def OFFLINE_DELAY : Nat := 40

/-- Default `TARGET_NAME` (main.py line 30). -/
def TARGET_NAME : String := "User"

/-- The status payload carried by an `UpdateUserStatus` raw event:
`UserStatusOnline`, `UserStatusOffline`, or any other status type
(e.g. `UserStatusRecently`), which matches neither `isinstance` test. -/
inductive UserStatus where
  | online
  | offline
  | otherStatus
deriving Repr, DecidableEq

/-- A raw telethon event: an `UpdateUserStatus` for some user id, or any
other raw update (which fails the first `isinstance` check). -/
inductive RawEvent where
  | statusUpdate (user_id : Nat) (st : UserStatus)
  | otherEvent
deriving Repr, DecidableEq

/-- Initial globals (main.py lines 35-44): status `CONNECTING`,
`last_seen = "--"`, empty duration, no `online_since`, no task. -/
def initialState : Sys :=
  { state := { name := TARGET_NAME
               status := "CONNECTING"
               last_seen := none
               duration := "" }
    online_since := none
    offline_task := none
    liveTasks := [] }

/-- Lines 116-118: `if offline_task: offline_task.cancel(); offline_task
= None`.  Cancelling removes the referenced task from the live set (a
no-op if that task already fired — `erase` of an absent element). -/
def cancelVar (s : Sys) : Sys :=
  match s.offline_task with
  | some f => { s with liveTasks := s.liveTasks.erase f, offline_task := none }
  | none => s

/-- Lines 130-131: `if offline_task: offline_task.cancel()` — cancel
without clearing the variable (it is reassigned right after). -/
def cancelOnly (s : Sys) : Sys :=
  match s.offline_task with
  | some f => { s with liveTasks := s.liveTasks.erase f }
  | none => s

/-- Line 133: `offline_task = asyncio.create_task(delayed_offline())` —
a fresh task that will wake at `now + OFFLINE_DELAY`. -/
def armTask (now : Nat) (s : Sys) : Sys :=
  { s with
    offline_task := some (now + OFFLINE_DELAY)
    liveTasks := s.liveTasks ++ [now + OFFLINE_DELAY] }

/-- Lines 120-123 of the online branch: set status `ONLINE`, record
`online_since = now`, clear `duration`.  (`last_seen` is not touched by
the code.) -/
def goOnline (now : Nat) (s : Sys) : Sys :=
  { s with
    state := { s.state with status := "ONLINE", duration := "" }
    online_since := some now }

/-- The raw-event `handler` (main.py lines 103-133) for tracked id
`uid` at time `now`.  Returns the new globals and the snapshots
broadcast during the call (each broadcast sends the current `state`). -/
def handler (uid now : Nat) (event : RawEvent) (s : Sys) : Sys × List Snapshot :=
  match event with
  | .otherEvent => (s, [])
  | .statusUpdate u st =>
    if u ≠ uid then (s, [])
    else
      match st with
      | .online =>
        let s1 := cancelVar s
        if s1.state.status ≠ "ONLINE" then
          let s2 := goOnline now s1
          (s2, [s2.state])
        else
          (s1, [])
      | .offline =>
        let s1 := cancelOnly { s with online_since := none }
        (armTask now s1, [])
      | .otherStatus => (s, [])

/-- The body of `delayed_offline` (main.py lines 55-65) running at its
wakeup time `f`: the task leaves the live set (it completes), and if
`online_since` is still `None` it confirms the offline transition —
status `OFFLINE`, `last_seen` = the time the timer fired, clear
duration, broadcast.  The `offline_task` variable is *not* cleared by
the code, so the reference dangles after completion. -/
def fire (f : Nat) (s : Sys) : Sys × List Snapshot :=
  let s0 := { s with liveTasks := s.liveTasks.erase f }
  match s0.online_since with
  | none =>
    let s1 := { s0 with
                state := { s0.state with
                           status := "OFFLINE"
                           last_seen := some f
                           duration := "" } }
    (s1, [s1.state])
  | some _ => (s0, [])

/-- Fire every live task due by time `t`, earliest first, logging each
broadcast with the wakeup time at which it was sent.  The fuel bounds
the recursion; `s.liveTasks.length` is always enough, since each firing
removes the fired task from the live set. -/
def fireDueFuel : Nat → Nat → Sys → Sys × List (Nat × Snapshot)
  | 0, _, s => (s, [])
  | fuel + 1, t, s =>
    match (s.liveTasks.filter (fun f => decide (f ≤ t))).min? with
    | none => (s, [])
    | some fmin =>
      let p := fire fmin s
      let q := fireDueFuel fuel t p.1
      (q.1, p.2.map (fun b => (fmin, b)) ++ q.2)

/-- Fire every live task due by time `t`. -/
def fireDue (t : Nat) (s : Sys) : Sys × List (Nat × Snapshot) :=
  fireDueFuel s.liveTasks.length t s

/-- Serialized event-loop semantics (§5 of the design: raw events and
timer firings never run concurrently): process timed raw events in
order; before handling an event at time `t`, any armed task due by `t`
fires first; after the last event, tasks due by `endT` fire.  Returns
the final globals and the time-stamped broadcast log. -/
def run (uid : Nat) (s : Sys) (evs : List (Nat × RawEvent)) (endT : Nat) :
    Sys × List (Nat × Snapshot) :=
  match evs with
  | [] => fireDue endT s
  | (t, e) :: rest =>
    let p := fireDue t s
    let q := handler uid t e p.1
    let r := run uid q.1 rest endT
    (r.1, p.2 ++ q.2.map (fun b => (t, b)) ++ r.2)

/-- Initial status sync (main.py lines 86-100): if the resolved user is
online, set status `ONLINE`, `online_since = now`, clear duration;
otherwise set status `OFFLINE` and store the adapter's last-seen
timestamp if present, else the `"--"` sentinel.  Then broadcast once,
unconditionally. -/
def initSync (now : Nat) (userOnline : Bool) (was_online : Option Nat) (s : Sys) :
    Sys × List Snapshot :=
  if userOnline then
    let s1 := { s with
                state := { s.state with status := "ONLINE", duration := "" }
                online_since := some now }
    (s1, [s1.state])
  else
    let s1 := { s with
                state := { s.state with
                           status := "OFFLINE"
                           last_seen := was_online } }
    (s1, [s1.state])

/-- The `broadcast` loop (main.py lines 47-52): iterate over a snapshot
copy `list(clients)` of the client set; a send that raises is caught and
the client is discarded from the set; the loop itself never raises.
First argument is the copy still to process, second the current set.
Returns the set after the loop and the clients that received the
snapshot, in iteration order. -/
def broadcastLoop (failing : Nat → Bool) : List Nat → List Nat → List Nat × List Nat
  | [], clients => (clients, [])
  | ws :: rest, clients =>
    if failing ws then broadcastLoop failing rest (clients.erase ws)
    else
      let r := broadcastLoop failing rest clients
      (r.1, ws :: r.2)

/-- `broadcast` (main.py lines 47-52), as a total function of the
client set and of which sends fail: no exception escapes to the
caller. -/
def broadcast (clients : List Nat) (failing : Nat → Bool) : List Nat × List Nat :=
  broadcastLoop failing clients clients

/-- The registration steps of `websocket_endpoint` (main.py lines
149-152): accept, add the socket to the `clients` set, and immediately
send it the current `state` snapshot.  Returns the new client set and
the message sent. -/
def register (clients : List Nat) (ws : Nat) (snap : Snapshot) :
    List Nat × (Nat × Snapshot) :=
  (if ws ∈ clients then clients else clients ++ [ws], (ws, snap))

/-- At most one debounce handle is live, and a live handle is exactly
the one the `offline_task` variable references. -/
def Inv (s : Sys) : Prop :=
  s.liveTasks = [] ∨ ∃ f, s.liveTasks = [f] ∧ s.offline_task = some f

/-! ### Field lemmas for the small state transformers -/

@[simp] lemma cancelVar_state (s : Sys) : (cancelVar s).state = s.state := by
  cases h : s.offline_task <;> simp [cancelVar, h]

@[simp] lemma cancelVar_online_since (s : Sys) :
    (cancelVar s).online_since = s.online_since := by
  cases h : s.offline_task <;> simp [cancelVar, h]

/-- After the online-branch cancel, the `offline_task` variable is
`None`: either it already was, or line 118 clears it. -/
@[simp] lemma cancelVar_offline_task (s : Sys) :
    (cancelVar s).offline_task = none := by
  cases h : s.offline_task <;> simp [cancelVar, h]

@[simp] lemma cancelOnly_state (s : Sys) : (cancelOnly s).state = s.state := by
  cases h : s.offline_task <;> simp [cancelOnly, h]

@[simp] lemma cancelOnly_online_since (s : Sys) :
    (cancelOnly s).online_since = s.online_since := by
  cases h : s.offline_task <;> simp [cancelOnly, h]

@[simp] lemma cancelOnly_offline_task (s : Sys) :
    (cancelOnly s).offline_task = s.offline_task := by
  cases h : s.offline_task <;> simp [cancelOnly, h]

lemma cancelVar_liveTasks_of_inv (s : Sys) (h : Inv s) :
    (cancelVar s).liveTasks = [] := by
  rcases h with h | ⟨f, hl, ht⟩
  · cases ho : s.offline_task <;> simp [cancelVar, ho, h]
  · simp [cancelVar, ht, hl]

lemma cancelOnly_liveTasks_of_inv (s : Sys) (h : Inv s) :
    (cancelOnly s).liveTasks = [] := by
  rcases h with h | ⟨f, hl, ht⟩
  · cases ho : s.offline_task <;> simp [cancelOnly, ho, h]
  · simp [cancelOnly, ht, hl]

@[simp] lemma goOnline_state (now : Nat) (s : Sys) :
    (goOnline now s).state
      = { s.state with status := "ONLINE", duration := "" } := rfl

@[simp] lemma goOnline_online_since (now : Nat) (s : Sys) :
    (goOnline now s).online_since = some now := rfl

@[simp] lemma goOnline_offline_task (now : Nat) (s : Sys) :
    (goOnline now s).offline_task = s.offline_task := rfl

@[simp] lemma goOnline_liveTasks (now : Nat) (s : Sys) :
    (goOnline now s).liveTasks = s.liveTasks := rfl

@[simp] lemma armTask_state (now : Nat) (s : Sys) :
    (armTask now s).state = s.state := rfl

@[simp] lemma armTask_online_since (now : Nat) (s : Sys) :
    (armTask now s).online_since = s.online_since := rfl

@[simp] lemma armTask_offline_task (now : Nat) (s : Sys) :
    (armTask now s).offline_task = some (now + OFFLINE_DELAY) := rfl

@[simp] lemma armTask_liveTasks (now : Nat) (s : Sys) :
    (armTask now s).liveTasks = s.liveTasks ++ [now + OFFLINE_DELAY] := rfl

/-! ### Characterizations of the handler branches -/

lemma handler_otherEvent (uid now : Nat) (s : Sys) :
    handler uid now RawEvent.otherEvent s = (s, []) := rfl

lemma handler_wrong_user (uid now u : Nat) (st : UserStatus) (s : Sys)
    (h : u ≠ uid) :
    handler uid now (RawEvent.statusUpdate u st) s = (s, []) := by
  simp [handler, h]

lemma handler_otherStatus (uid now : Nat) (s : Sys) :
    handler uid now (RawEvent.statusUpdate uid UserStatus.otherStatus) s
      = (s, []) := by
  simp [handler]

lemma handler_online_already (uid now : Nat) (s : Sys)
    (h : s.state.status = "ONLINE") :
    handler uid now (RawEvent.statusUpdate uid UserStatus.online) s
      = (cancelVar s, []) := by
  simp [handler, h]

lemma handler_online_transition (uid now : Nat) (s : Sys)
    (h : s.state.status ≠ "ONLINE") :
    handler uid now (RawEvent.statusUpdate uid UserStatus.online) s
      = (goOnline now (cancelVar s), [(goOnline now (cancelVar s)).state]) := by
  simp [handler, h]

lemma handler_offline_eq (uid now : Nat) (s : Sys) :
    handler uid now (RawEvent.statusUpdate uid UserStatus.offline) s
      = (armTask now (cancelOnly { s with online_since := none }), []) := by
  simp [handler]

/-- Under the invariant, an offline event leaves exactly the freshly
armed task live (the old one was cancelled first). -/
lemma handler_offline_of_inv (uid now : Nat) (s : Sys) (h : Inv s) :
    handler uid now (RawEvent.statusUpdate uid UserStatus.offline) s
      = ({ state := s.state
           online_since := none
           offline_task := some (now + OFFLINE_DELAY)
           liveTasks := [now + OFFLINE_DELAY] }, []) := by
  rw [handler_offline_eq]
  rcases h with h | ⟨f, hl, ht⟩
  · cases ho : s.offline_task <;>
      simp [armTask, cancelOnly, ho, h, Sys.mk.injEq]
  · simp [armTask, cancelOnly, ht, hl, Sys.mk.injEq]

/-! ### Characterizations of the debounce-timer firing -/

@[simp] lemma fire_offline_task (f : Nat) (s : Sys) :
    (fire f s).1.offline_task = s.offline_task := by
  cases h : s.online_since <;> simp [fire, h]

@[simp] lemma fire_liveTasks (f : Nat) (s : Sys) :
    (fire f s).1.liveTasks = s.liveTasks.erase f := by
  cases h : s.online_since <;> simp [fire, h]

lemma fire_of_online_since_none (f : Nat) (s : Sys) (h : s.online_since = none) :
    fire f s =
      ({ s with
         state := { s.state with
                    status := "OFFLINE"
                    last_seen := some f
                    duration := "" }
         liveTasks := s.liveTasks.erase f },
       [{ s.state with status := "OFFLINE", last_seen := some f, duration := "" }]) := by
  simp [fire, h]

lemma fire_of_online_since_some (f g : Nat) (s : Sys) (h : s.online_since = some g) :
    fire f s = ({ s with liveTasks := s.liveTasks.erase f }, []) := by
  simp [fire, h]

lemma fireDue_of_liveTasks_nil (t : Nat) (s : Sys) (h : s.liveTasks = []) :
    fireDue t s = (s, []) := by
  simp [fireDue, h, fireDueFuel]

lemma fireDue_of_not_due (t : Nat) (s : Sys) (h : ∀ f ∈ s.liveTasks, ¬ f ≤ t) :
    fireDue t s = (s, []) := by
  have hf : s.liveTasks.filter (fun f => decide (f ≤ t)) = [] := by
    rw [List.filter_eq_nil_iff]
    intro a ha
    simpa using h a ha
  unfold fireDue
  cases hL : s.liveTasks.length with
  | zero => simp [fireDueFuel]
  | succ n => simp [fireDueFuel, hf]

/-- A single due task with no intervening online event: the timer fires
at its wakeup time and confirms the offline transition. -/
lemma fireDue_single_due (t f : Nat) (s : Sys) (hl : s.liveTasks = [f])
    (hd : f ≤ t) (ho : s.online_since = none) :
    fireDue t s =
      ({ s with
         state := { s.state with
                    status := "OFFLINE"
                    last_seen := some f
                    duration := "" }
         liveTasks := [] },
       [(f, { s.state with status := "OFFLINE", last_seen := some f, duration := "" })]) := by
  unfold fireDue
  rw [hl]
  simp only [List.length_cons, List.length_nil]
  rw [fireDueFuel]
  simp [hl, hd, fire, ho, fireDueFuel]

/-! ### Preservation of the single-live-handle invariant -/

lemma inv_handler (uid now : Nat) (e : RawEvent) (s : Sys) (h : Inv s) :
    Inv (handler uid now e s).1 := by
  cases e with
  | otherEvent => exact h
  | statusUpdate u st =>
    by_cases hu : u ≠ uid
    · rw [handler_wrong_user uid now u st s hu]; exact h
    · rw [not_not] at hu
      subst hu
      cases st with
      | online =>
        by_cases hst : s.state.status = "ONLINE"
        · rw [handler_online_already u now s hst]
          exact Or.inl (cancelVar_liveTasks_of_inv s h)
        · rw [handler_online_transition u now s hst]
          exact Or.inl (by simp [cancelVar_liveTasks_of_inv s h])
      | offline =>
        rw [handler_offline_of_inv u now s h]
        exact Or.inr ⟨now + OFFLINE_DELAY, rfl, rfl⟩
      | otherStatus =>
        rw [handler_otherStatus]; exact h

lemma inv_fire (f : Nat) (s : Sys) (h : Inv s) : Inv (fire f s).1 := by
  rcases h with h | ⟨g, hl, ht⟩
  · exact Or.inl (by simp [h])
  · by_cases hfg : g = f
    · subst hfg
      exact Or.inl (by simp [hl])
    · refine Or.inr ⟨g, ?_, by simp [ht]⟩
      simp [hl, hfg]

lemma inv_fireDueFuel (fuel t : Nat) (s : Sys) (h : Inv s) :
    Inv (fireDueFuel fuel t s).1 := by
  induction fuel generalizing s with
  | zero => exact h
  | succ n ih =>
    rw [fireDueFuel]
    cases hm : (s.liveTasks.filter (fun f => decide (f ≤ t))).min? with
    | none => exact h
    | some fmin => exact ih _ (inv_fire fmin s h)

lemma inv_fireDue (t : Nat) (s : Sys) (h : Inv s) : Inv (fireDue t s).1 :=
  inv_fireDueFuel _ t s h

lemma inv_run (uid : Nat) (evs : List (Nat × RawEvent)) (endT : Nat) (s : Sys)
    (h : Inv s) : Inv (run uid s evs endT).1 := by
  induction evs generalizing s with
  | nil => exact inv_fireDue endT s h
  | cons te rest ih =>
    obtain ⟨t, e⟩ := te
    exact ih _ (inv_handler uid t e _ (inv_fireDue t s h))

/-! ### Status-domain lemmas: every transition writes only the literals
`"ONLINE"` and `"OFFLINE"` -/

lemma handler_status_step (uid now : Nat) (e : RawEvent) (s : Sys) :
    (handler uid now e s).1.state.status = s.state.status ∨
      (handler uid now e s).1.state.status = "ONLINE" := by
  cases e with
  | otherEvent => exact Or.inl rfl
  | statusUpdate u st =>
    by_cases hu : u ≠ uid
    · rw [handler_wrong_user uid now u st s hu]
      exact Or.inl rfl
    · rw [not_not] at hu
      subst hu
      cases st with
      | online =>
        by_cases hst : s.state.status = "ONLINE"
        · rw [handler_online_already u now s hst]
          exact Or.inl (by simp)
        · rw [handler_online_transition u now s hst]
          exact Or.inr rfl
      | offline =>
        rw [handler_offline_eq]
        exact Or.inl (by simp)
      | otherStatus =>
        rw [handler_otherStatus]
        exact Or.inl rfl

lemma fire_status_step (f : Nat) (s : Sys) :
    (fire f s).1.state.status = s.state.status ∨
      (fire f s).1.state.status = "OFFLINE" := by
  cases h : s.online_since with
  | none => rw [fire_of_online_since_none f s h]; exact Or.inr rfl
  | some g =>
    rw [fire_of_online_since_some f g s h]
    exact Or.inl rfl

lemma fireDueFuel_status_step (fuel t : Nat) (s : Sys) :
    (fireDueFuel fuel t s).1.state.status = s.state.status ∨
      (fireDueFuel fuel t s).1.state.status = "OFFLINE" := by
  induction fuel generalizing s with
  | zero => exact Or.inl rfl
  | succ n ih =>
    rw [fireDueFuel]
    cases hm : (s.liveTasks.filter (fun f => decide (f ≤ t))).min? with
    | none => exact Or.inl rfl
    | some fmin =>
      rcases ih (fire fmin s).1 with h | h
      · rcases fire_status_step fmin s with h2 | h2
        · exact Or.inl (h.trans h2)
        · exact Or.inr (h.trans h2)
      · exact Or.inr h

lemma run_status_step (uid : Nat) (evs : List (Nat × RawEvent)) (endT : Nat)
    (s : Sys) :
    (run uid s evs endT).1.state.status = s.state.status ∨
      (run uid s evs endT).1.state.status = "ONLINE" ∨
      (run uid s evs endT).1.state.status = "OFFLINE" := by
  induction evs generalizing s with
  | nil =>
    rcases fireDueFuel_status_step s.liveTasks.length endT s with h | h
    · exact Or.inl h
    · exact Or.inr (Or.inr h)
  | cons te rest ih =>
    obtain ⟨t, e⟩ := te
    have hrun : (run uid s ((t, e) :: rest) endT).1
        = (run uid (handler uid t e (fireDue t s).1).1 rest endT).1 := rfl
    rw [hrun]
    rcases ih (handler uid t e (fireDue t s).1).1 with h | h | h
    · rcases handler_status_step uid t e (fireDue t s).1 with h2 | h2
      · rcases fireDueFuel_status_step s.liveTasks.length t s with h3 | h3
        · exact Or.inl (h.trans (h2.trans h3))
        · exact Or.inr (Or.inr (h.trans (h2.trans h3)))
      · exact Or.inr (Or.inl (h.trans h2))
    · exact Or.inr (Or.inl h)
    · exact Or.inr (Or.inr h)

/-- Helper: from a state with exactly the pending debounce task `t40`
live (and `online_since` cleared), an online event at `tOn` before the
wakeup produces no offline broadcast, cancels the task, and broadcasts
`ONLINE` exactly when the status was not already `ONLINE`. -/
lemma run_online_cancels_pending (uid tOn endT t40 : Nat) (st : Snapshot)
    (hnd : ¬ t40 ≤ tOn) :
    (run uid ⟨st, none, some t40, [t40]⟩
        [(tOn, RawEvent.statusUpdate uid UserStatus.online)] endT).2
      = if st.status = "ONLINE" then []
        else [(tOn, { st with status := "ONLINE", duration := "" })] := by
  have hfd : fireDue tOn (⟨st, none, some t40, [t40]⟩ : Sys)
      = (⟨st, none, some t40, [t40]⟩, []) := by
    apply fireDue_of_not_due
    intro f hf
    have : f = t40 := by simpa using hf
    subst this
    exact hnd
  have hcv : cancelVar (⟨st, none, some t40, [t40]⟩ : Sys)
      = ⟨st, none, none, []⟩ := by
    simp [cancelVar]
  by_cases hst : st.status = "ONLINE"
  · have hh : handler uid tOn (RawEvent.statusUpdate uid UserStatus.online)
        (⟨st, none, some t40, [t40]⟩ : Sys) = (⟨st, none, none, []⟩, []) := by
      rw [handler_online_already uid tOn _ hst, hcv]
    simp only [run, hfd, hh]
    rw [fireDue_of_liveTasks_nil endT _ rfl]
    simp [hst]
  · have hh : handler uid tOn (RawEvent.statusUpdate uid UserStatus.online)
        (⟨st, none, some t40, [t40]⟩ : Sys)
        = (⟨{ st with status := "ONLINE", duration := "" }, some tOn, none, []⟩,
           [{ st with status := "ONLINE", duration := "" }]) := by
      rw [handler_online_transition uid tOn _ hst, hcv]
      rfl
    simp only [run, hfd, hh]
    rw [fireDue_of_liveTasks_nil endT _ rfl]
    simp [hst]

/-! ### The claims -/

/-- C1, amended: on a "became online" raw event for the tracked
identity when the current status is not `ONLINE`, the handler sets the
status to `ONLINE`, sets `online_since` to the current time, clears
`duration`, leaves `last_seen` unchanged, and broadcasts the updated
snapshot exactly once.  (The frozen claim also said `last_seen` is
cleared; the code does not touch it — see the counterexample.) -/
theorem online_transition_effects (uid now : Nat) (s : Sys)
    (h : s.state.status ≠ "ONLINE") :
    ((handler uid now (RawEvent.statusUpdate uid UserStatus.online) s).1.state.status
        = "ONLINE") ∧
    ((handler uid now (RawEvent.statusUpdate uid UserStatus.online) s).1.online_since
        = some now) ∧
    ((handler uid now (RawEvent.statusUpdate uid UserStatus.online) s).1.state.duration
        = "") ∧
    ((handler uid now (RawEvent.statusUpdate uid UserStatus.online) s).1.state.last_seen
        = s.state.last_seen) ∧
    ((handler uid now (RawEvent.statusUpdate uid UserStatus.online) s).2
        = [(handler uid now (RawEvent.statusUpdate uid UserStatus.online) s).1.state]) := by
  rw [handler_online_transition uid now s h]
  exact ⟨rfl, rfl, rfl, by simp, rfl⟩

/-- C1, witness for the amended theorem at a concrete input. -/
theorem online_transition_effects_w :
    initialState.state.status ≠ "ONLINE" ∧
    (handler 7 3 (RawEvent.statusUpdate 7 UserStatus.online) initialState).1.state.status
      = "ONLINE" :=
  ⟨by decide, (online_transition_effects 7 3 initialState (by decide)).1⟩

/-- C1, counterexample to the claim as frozen: on the reachable state
obtained from an offline initial sync, an offline event at `t = 10` and
the debounce firing at `t = 50` (which stores `last_seen = 50`), the
"became online" event at `t = 60` finds status `OFFLINE` but does *not*
clear `last_seen`: it remains `some 50` (not the `"--"` sentinel) both
in the stored snapshot and in the broadcast one. -/
theorem online_transition_keeps_lastSeen :
    ((run 7 (initSync 0 false none initialState).1
        [(10, RawEvent.statusUpdate 7 UserStatus.offline)] 50).1.state.status
      ≠ "ONLINE") ∧
    ((handler 7 60 (RawEvent.statusUpdate 7 UserStatus.online)
        (run 7 (initSync 0 false none initialState).1
          [(10, RawEvent.statusUpdate 7 UserStatus.offline)] 50).1).1.state.last_seen
      = some 50) ∧
    ((handler 7 60 (RawEvent.statusUpdate 7 UserStatus.online)
        (run 7 (initSync 0 false none initialState).1
          [(10, RawEvent.statusUpdate 7 UserStatus.offline)] 50).1).1.state.last_seen
      ≠ none) ∧
    ((handler 7 60 (RawEvent.statusUpdate 7 UserStatus.online)
        (run 7 (initSync 0 false none initialState).1
          [(10, RawEvent.statusUpdate 7 UserStatus.offline)] 50).1).2.map
        Snapshot.last_seen = [some 50]) := by
  decide

/-- C2: flicker suppression.  From any state satisfying the
single-handle invariant whose pending task (if any) is not yet due, a
"became offline" event at `t` followed by a "became online" event at
`tOn < t + OFFLINE_DELAY` produces no broadcast with status `OFFLINE` —
even running arbitrarily far past `t + OFFLINE_DELAY` — and exactly one
broadcast with status `ONLINE`, unless the status was already `ONLINE`
before the flicker, in which case no broadcast at all is sent. -/
theorem flicker_suppression (uid t tOn endT : Nat) (s : Sys) (h : Inv s)
    (hfresh : ∀ f ∈ s.liveTasks, t < f) (hord : t ≤ tOn)
    (hwin : tOn < t + OFFLINE_DELAY) :
    (∀ p ∈ (run uid s [(t, RawEvent.statusUpdate uid UserStatus.offline),
        (tOn, RawEvent.statusUpdate uid UserStatus.online)] endT).2,
      p.2.status ≠ "OFFLINE") ∧
    (s.state.status = "ONLINE" →
      (run uid s [(t, RawEvent.statusUpdate uid UserStatus.offline),
        (tOn, RawEvent.statusUpdate uid UserStatus.online)] endT).2 = []) ∧
    (s.state.status ≠ "ONLINE" →
      (run uid s [(t, RawEvent.statusUpdate uid UserStatus.offline),
        (tOn, RawEvent.statusUpdate uid UserStatus.online)] endT).2
        = [(tOn, { s.state with status := "ONLINE", duration := "" })]) := by
  have hfd : fireDue t s = (s, []) := by
    apply fireDue_of_not_due
    intro f hf
    have := hfresh f hf
    omega
  have hh : handler uid t (RawEvent.statusUpdate uid UserStatus.offline) s
      = (⟨s.state, none, some (t + OFFLINE_DELAY), [t + OFFLINE_DELAY]⟩, []) :=
    handler_offline_of_inv uid t s h
  have step1 : (run uid s [(t, RawEvent.statusUpdate uid UserStatus.offline),
      (tOn, RawEvent.statusUpdate uid UserStatus.online)] endT).2
      = (fireDue t s).2
        ++ ((handler uid t (RawEvent.statusUpdate uid UserStatus.offline)
              (fireDue t s).1).2.map (fun b => (t, b)))
        ++ (run uid (handler uid t (RawEvent.statusUpdate uid UserStatus.offline)
              (fireDue t s).1).1
            [(tOn, RawEvent.statusUpdate uid UserStatus.online)] endT).2 := rfl
  have key : (run uid s [(t, RawEvent.statusUpdate uid UserStatus.offline),
      (tOn, RawEvent.statusUpdate uid UserStatus.online)] endT).2
      = if s.state.status = "ONLINE" then []
        else [(tOn, { s.state with status := "ONLINE", duration := "" })] := by
    rw [step1]
    simp only [hfd, hh]
    rw [run_online_cancels_pending uid tOn endT (t + OFFLINE_DELAY) s.state (by omega)]
    simp
  refine ⟨?_, ?_, ?_⟩
  · intro p hp
    rw [key] at hp
    by_cases hst : s.state.status = "ONLINE"
    · rw [if_pos hst] at hp
      simp at hp
    · rw [if_neg hst] at hp
      simp only [List.mem_singleton] at hp
      subst hp
      show ("ONLINE" : String) ≠ "OFFLINE"
      decide
  · intro hst
    rw [key, if_pos hst]
  · intro hst
    rw [key, if_neg hst]

/-- C2, witness: starting already `ONLINE` (initial sync at time 0), an
offline event at `t = 5` and an online event at `t = 10` produce zero
broadcasts even when the run continues to `t = 200`. -/
theorem flicker_suppression_w :
    Inv (initSync 0 true none initialState).1 ∧
    (∀ f ∈ (initSync 0 true none initialState).1.liveTasks, 5 < f) ∧
    (5 : Nat) ≤ 10 ∧ (10 : Nat) < 5 + OFFLINE_DELAY ∧
    ((initSync 0 true none initialState).1.state.status = "ONLINE" →
      (run 7 (initSync 0 true none initialState).1
        [(5, RawEvent.statusUpdate 7 UserStatus.offline),
         (10, RawEvent.statusUpdate 7 UserStatus.online)] 200).2 = []) :=
  ⟨Or.inl rfl, by decide, by decide, by decide,
   (flicker_suppression 7 5 10 200 (initSync 0 true none initialState).1
      (Or.inl rfl) (by decide) (by decide) (by decide)).2.1⟩

/-- C3: confirmed offline.  From any state satisfying the single-handle
invariant whose pending task (if any) is not yet due, a "became
offline" event at `t` followed by no further event up to an horizon
`endT ≥ t + OFFLINE_DELAY` produces exactly one broadcast: status
`OFFLINE`, sent at `t + OFFLINE_DELAY`, with `last_seen` equal to the
time the debounce timer fired (`t + OFFLINE_DELAY`) and not to the time
`t` of the original offline event. -/
theorem confirmed_offline_broadcast (uid t endT : Nat) (s : Sys) (h : Inv s)
    (hfresh : ∀ f ∈ s.liveTasks, t < f) (hend : t + OFFLINE_DELAY ≤ endT) :
    ((run uid s [(t, RawEvent.statusUpdate uid UserStatus.offline)] endT).2
      = [(t + OFFLINE_DELAY,
          { s.state with
            status := "OFFLINE"
            last_seen := some (t + OFFLINE_DELAY)
            duration := "" })]) ∧
    (t + OFFLINE_DELAY ≠ t) := by
  have hfd : fireDue t s = (s, []) := by
    apply fireDue_of_not_due
    intro f hf
    have := hfresh f hf
    omega
  have hh : handler uid t (RawEvent.statusUpdate uid UserStatus.offline) s
      = (⟨s.state, none, some (t + OFFLINE_DELAY), [t + OFFLINE_DELAY]⟩, []) :=
    handler_offline_of_inv uid t s h
  constructor
  · have hfin : fireDue endT (⟨s.state, none, some (t + OFFLINE_DELAY),
        [t + OFFLINE_DELAY]⟩ : Sys)
        = (⟨{ s.state with
              status := "OFFLINE"
              last_seen := some (t + OFFLINE_DELAY)
              duration := "" }, none, some (t + OFFLINE_DELAY), []⟩,
           [(t + OFFLINE_DELAY,
             { s.state with
               status := "OFFLINE"
               last_seen := some (t + OFFLINE_DELAY)
               duration := "" })]) := by
      rw [fireDue_single_due endT (t + OFFLINE_DELAY) _ rfl hend rfl]
    simp only [run, hfd, hh, hfin]
    simp
  · have : (0 : Nat) < OFFLINE_DELAY := by decide
    omega

/-- C3, witness: from the initial `CONNECTING` state, an offline event
at `t = 0` with horizon `endT = 40` yields the single `OFFLINE`
broadcast at time 40 with `last_seen = 40`. -/
theorem confirmed_offline_broadcast_w :
    Inv initialState ∧
    (∀ f ∈ initialState.liveTasks, 0 < f) ∧
    0 + OFFLINE_DELAY ≤ 40 ∧
    (run 7 initialState [(0, RawEvent.statusUpdate 7 UserStatus.offline)] 40).2
      = [(0 + OFFLINE_DELAY,
          { initialState.state with
            status := "OFFLINE"
            last_seen := some (0 + OFFLINE_DELAY)
            duration := "" })] :=
  ⟨Or.inl rfl, by decide, by decide,
   (confirmed_offline_broadcast 7 0 40 initialState (Or.inl rfl)
      (by decide) (by decide)).1⟩

/-- C4: on a "became online" raw event for the tracked identity when
the current status is already `ONLINE`, the handler cancels any pending
debounce handle (the `offline_task` variable is cleared, and under the
single-handle invariant no task is left live) and does nothing further:
no broadcast is sent, and both the snapshot and `online_since` are left
unchanged — so two consecutive `ONLINE` events never produce two
identical-status broadcasts. -/
theorem online_event_noop_when_online (uid now : Nat) (s : Sys)
    (h : s.state.status = "ONLINE") :
    ((handler uid now (RawEvent.statusUpdate uid UserStatus.online) s).2 = []) ∧
    ((handler uid now (RawEvent.statusUpdate uid UserStatus.online) s).1.state
        = s.state) ∧
    ((handler uid now (RawEvent.statusUpdate uid UserStatus.online) s).1.online_since
        = s.online_since) ∧
    ((handler uid now (RawEvent.statusUpdate uid UserStatus.online) s).1.offline_task
        = none) ∧
    (Inv s →
      (handler uid now (RawEvent.statusUpdate uid UserStatus.online) s).1.liveTasks
        = []) := by
  rw [handler_online_already uid now s h]
  exact ⟨rfl, by simp, by simp, by simp, fun hi => cancelVar_liveTasks_of_inv s hi⟩

/-- C4, witness at a concrete already-online state. -/
theorem online_event_noop_when_online_w :
    (initSync 5 true none initialState).1.state.status = "ONLINE" ∧
    (handler 7 9 (RawEvent.statusUpdate 7 UserStatus.online)
        (initSync 5 true none initialState).1).2 = [] :=
  ⟨by decide, (online_event_noop_when_online 7 9 (initSync 5 true none initialState).1
      (by decide)).1⟩

/-- C5: at any instant at most one debounce handle is live.  Along any
run from a state satisfying the invariant at most one task is ever
live; a "became offline" raw event cancels the existing handle before
installing the new one, leaving exactly the fresh handle live; and a
"became online" raw event cancels any existing handle unconditionally,
leaving none live. -/
theorem single_live_debounce_handle (uid : Nat) (s : Sys) (h : Inv s) :
    (∀ evs endT, (run uid s evs endT).1.liveTasks.length ≤ 1) ∧
    (∀ now, (handler uid now (RawEvent.statusUpdate uid UserStatus.offline) s).1.liveTasks
        = [now + OFFLINE_DELAY]) ∧
    (∀ now, (handler uid now (RawEvent.statusUpdate uid UserStatus.online) s).1.liveTasks
        = []) := by
  refine ⟨fun evs endT => ?_, fun now => ?_, fun now => ?_⟩
  · rcases inv_run uid evs endT s h with h2 | ⟨f, hf, _⟩
    · simp [h2]
    · simp [hf]
  · rw [handler_offline_of_inv uid now s h]
  · by_cases hst : s.state.status = "ONLINE"
    · rw [handler_online_already uid now s hst]
      exact cancelVar_liveTasks_of_inv s h
    · rw [handler_online_transition uid now s hst]
      simp [cancelVar_liveTasks_of_inv s h]

/-- C5, witness: from the initial state, an offline event at `t = 5`
leaves exactly the handle due at `5 + OFFLINE_DELAY` live. -/
theorem single_live_debounce_handle_w :
    Inv initialState ∧
    (handler 7 5 (RawEvent.statusUpdate 7 UserStatus.offline) initialState).1.liveTasks
      = [5 + OFFLINE_DELAY] :=
  ⟨Or.inl rfl, (single_live_debounce_handle 7 initialState (Or.inl rfl)).2.1 5⟩

/-- C8: for every sequence of raw events (and any horizon), the
snapshot's status only ever holds one of `CONNECTING`, `ONLINE`,
`OFFLINE`, and once the status has left `CONNECTING` it never returns
to it.  Quantifying over all traces and horizons covers every reachable
instant, since every prefix of a trace is itself a trace. -/
theorem status_domain_run (uid : Nat) (evs : List (Nat × RawEvent)) (endT : Nat)
    (s : Sys)
    (h : s.state.status = "CONNECTING" ∨ s.state.status = "ONLINE" ∨
         s.state.status = "OFFLINE") :
    ((run uid s evs endT).1.state.status = "CONNECTING" ∨
     (run uid s evs endT).1.state.status = "ONLINE" ∨
     (run uid s evs endT).1.state.status = "OFFLINE") ∧
    (s.state.status ≠ "CONNECTING" →
      (run uid s evs endT).1.state.status ≠ "CONNECTING") := by
  constructor
  · rcases run_status_step uid evs endT s with h2 | h2 | h2
    · rw [h2]; exact h
    · exact Or.inr (Or.inl h2)
    · exact Or.inr (Or.inr h2)
  · intro hne
    rcases run_status_step uid evs endT s with h2 | h2 | h2
    · rw [h2]; exact hne
    · rw [h2]; decide
    · rw [h2]; decide

/-- C8, witness on a concrete trace from the initial state. -/
theorem status_domain_run_w :
    (initialState.state.status = "CONNECTING" ∨
     initialState.state.status = "ONLINE" ∨
     initialState.state.status = "OFFLINE") ∧
    ((run 7 initialState [(1, RawEvent.statusUpdate 7 UserStatus.online)] 2).1.state.status
        = "CONNECTING" ∨
     (run 7 initialState [(1, RawEvent.statusUpdate 7 UserStatus.online)] 2).1.state.status
        = "ONLINE" ∨
     (run 7 initialState [(1, RawEvent.statusUpdate 7 UserStatus.online)] 2).1.state.status
        = "OFFLINE") :=
  ⟨Or.inl rfl,
   (status_domain_run 7 [(1, RawEvent.statusUpdate 7 UserStatus.online)] 2
      initialState (Or.inl rfl)).1⟩

/-- C9: a raw event that is not a user-status update, or that concerns
an identity other than the tracked one, is ignored without side
effects: the handler returns the state completely unchanged (snapshot,
`online_since`, debounce bookkeeping) and broadcasts nothing. -/
theorem irrelevant_event_no_effect (uid now : Nat) (s : Sys) (e : RawEvent)
    (h : e = RawEvent.otherEvent ∨
         ∃ u st, e = RawEvent.statusUpdate u st ∧ u ≠ uid) :
    handler uid now e s = (s, []) := by
  rcases h with h | ⟨u, st, he, hu⟩
  · subst h; rfl
  · subst he; exact handler_wrong_user uid now u st s hu

/-- C9, witness: a status update for user 3 is ignored when tracking
user 7. -/
theorem irrelevant_event_no_effect_w :
    (RawEvent.statusUpdate 3 UserStatus.online = RawEvent.otherEvent ∨
     ∃ u st, RawEvent.statusUpdate 3 UserStatus.online
        = RawEvent.statusUpdate u st ∧ u ≠ 7) ∧
    handler 7 0 (RawEvent.statusUpdate 3 UserStatus.online) initialState
      = (initialState, []) :=
  ⟨Or.inr ⟨3, UserStatus.online, rfl, by decide⟩,
   irrelevant_event_no_effect 7 0 initialState (RawEvent.statusUpdate 3 UserStatus.online)
     (Or.inr ⟨3, UserStatus.online, rfl, by decide⟩)⟩

/-- Loop invariant of `broadcast`: iterating the copy `go` over current
set `clients` removes exactly the failing members of `go` and delivers
to exactly the non-failing members of `go`, in order. -/
lemma broadcastLoop_spec (failing : Nat → Bool) (go : List Nat) :
    ∀ clients : List Nat, clients.Nodup →
      (broadcastLoop failing go clients).1
          = clients.filter (fun c => !(decide (c ∈ go) && failing c)) ∧
      (broadcastLoop failing go clients).2 = go.filter (fun c => !failing c) := by
  induction go with
  | nil =>
    intro clients h
    refine ⟨?_, rfl⟩
    simp [broadcastLoop]
  | cons ws rest ih =>
    intro clients h
    cases hw : failing ws with
    | true =>
      obtain ⟨ih1, ih2⟩ := ih (clients.erase ws) (h.erase ws)
      constructor
      · simp only [broadcastLoop, hw, if_true]
        rw [ih1, List.Nodup.erase_eq_filter h ws, List.filter_filter]
        apply List.filter_congr
        intro c hc
        by_cases hcw : c = ws
        · subst hcw
          simp [hw]
        · simp [hcw, List.mem_cons]
      · simp only [broadcastLoop, hw, if_true]
        rw [ih2]
        simp [hw]
    | false =>
      obtain ⟨ih1, ih2⟩ := ih clients h
      constructor
      · simp only [broadcastLoop, hw, Bool.false_eq_true, if_false]
        rw [ih1]
        apply List.filter_congr
        intro c hc
        by_cases hcw : c = ws
        · subst hcw
          simp [hw]
        · simp [hcw, List.mem_cons]
      · simp only [broadcastLoop, hw, Bool.false_eq_true, if_false]
        rw [ih2]
        simp [hw]

/-- C6: for every (duplicate-free) registered observer set and every
subset of observers whose send fails, `broadcast` removes exactly the
failing observers from the set, still delivers the snapshot to every
other registered observer, and — being a total function — never lets a
send failure escape to its caller. -/
theorem broadcast_failure_isolation (clients : List Nat) (failing : Nat → Bool)
    (h : clients.Nodup) :
    broadcast clients failing
      = (clients.filter (fun ws => !failing ws),
         clients.filter (fun ws => !failing ws)) := by
  obtain ⟨h1, h2⟩ := broadcastLoop_spec failing clients clients h
  unfold broadcast
  refine Prod.ext ?_ ?_
  · rw [h1]
    apply List.filter_congr
    intro c hc
    simp [hc]
  · rw [h2]

/-- C6, witness: with observers `[1, 2, 3]` and the send to `2`
failing, observer 2 is removed and observers 1 and 3 both receive the
snapshot. -/
theorem broadcast_failure_isolation_w :
    ([1, 2, 3] : List Nat).Nodup ∧
    broadcast [1, 2, 3] (fun ws => ws == 2) = ([1, 3], [1, 3]) := by
  refine ⟨by decide, ?_⟩
  rw [broadcast_failure_isolation [1, 2, 3] (fun ws => ws == 2) (by decide)]
  decide

/-- C7: registering a new observer adds it to the observer set and the
message sent to it at registration is exactly the snapshot passed in —
the store's value at the moment of registration — whatever the snapshot
is, with no dependency on any subsequent presence event (the
registration path never consults the event stream). -/
theorem register_sends_current_snapshot (clients : List Nat) (ws : Nat)
    (snap : Snapshot) :
    (register clients ws snap).2 = (ws, snap) ∧
    ws ∈ (register clients ws snap).1 := by
  refine ⟨rfl, ?_⟩
  unfold register
  by_cases h : ws ∈ clients
  · simp [h]
  · simp [h]

/-- C10: consecutive identical-status `OFFLINE` broadcasts are
reachable.  Starting from the reachable state produced by an offline
initial sync (status `OFFLINE`, broadcast once with status `OFFLINE`),
a further "became offline" raw event at `t = 100` followed by 40
seconds without an online event produces another broadcast with status
`OFFLINE` at `t = 140`, carrying the fresh `last_seen = 140` (the prior
snapshot's `last_seen` was the unknown sentinel): duplicate suppression
applies only to `ONLINE` events. -/
theorem consecutive_offline_broadcasts_reachable :
    ((initSync 0 false none initialState).1.state.status = "OFFLINE") ∧
    ((initSync 0 false none initialState).2.map Snapshot.status = ["OFFLINE"]) ∧
    ((run 7 (initSync 0 false none initialState).1
        [(100, RawEvent.statusUpdate 7 UserStatus.offline)] 140).2.map
        (fun p => p.2.status) = ["OFFLINE"]) ∧
    ((run 7 (initSync 0 false none initialState).1
        [(100, RawEvent.statusUpdate 7 UserStatus.offline)] 140).2.map
        (fun p => p.2.last_seen) = [some 140]) ∧
    ((run 7 (initSync 0 false none initialState).1
        [(100, RawEvent.statusUpdate 7 UserStatus.offline)] 140).2.map
        Prod.fst = [140]) ∧
    ((initSync 0 false none initialState).1.state.last_seen ≠ some 140) := by
  decide

end FunTrack
